import Mathlib

set_option autoImplicit false

/-!
Verification of the daemonization and readiness-handshake subsystem of the
agentfs CLI (src/cli/src/daemon.rs) and of the mount command's overlay lookup
and mount probe (src/cli/src/cmd/mount.rs).

The handshake syscalls are modelled by traces: a list of results that the
successive calls to read(2)/write(2) return, each paired with the errno in
effect when the call returns -1.  The retry loops of `wait_for_signal` and
`signal_parent` are structural recursions over such a trace; `none` means the
trace was exhausted with the loop still running (the call would block again).

The child's readiness-polling loop is modelled by three sequences indexed by
the iteration number: the result of `ready_check()` in that iteration, the
result of `daemon_thread.is_finished()`, and the value of `start.elapsed()`
at that iteration's deadline test (a natural number, like a Duration it is
never negative).  `pollLoop` carries fuel to stay total; it returns the loop
outcome together with the index of the deciding iteration, so "how many
probe calls" and "how many sleeps" are the index plus one and the index.
-/

/-- The errno value of EINTR on Linux. -/
def EINTR : Int := 4

/-- One call to read(2) on the handshake pipe, as observed by the retry loop
of `wait_for_signal`: `ret` is the return value, `byte` the content of the
one-byte buffer after the call (meaningful when `ret = 1`), `errno` the error
code in effect when `ret = -1`. -/
structure ReadEvent where
  ret : Int
  byte : Nat
  errno : Int
deriving DecidableEq, Repr

/-- Embedding of `wait_for_signal` (daemon.rs, lines 124-146) over a trace of
read results.  Returns `some b` when the loop returns the boolean `b`, and
`none` when the trace ends with the loop still retrying. -/
def wait_for_signal : List ReadEvent → Option Bool
  | [] => none
  | e :: rest =>
    if e.ret = 1 then some (e.byte == 0)
    else if e.ret = 0 then some false
    else if e.ret = -1 then
      if e.errno = EINTR then wait_for_signal rest
      else some false
    else some false

/-- One call to write(2) on the handshake pipe, as observed by the retry loop
of `signal_parent`. -/
structure WriteEvent where
  ret : Int
  errno : Int
deriving DecidableEq, Repr

/-- Result of `signal_parent`: success, a write error with its errno
(the bail with message Failed to signal parent), or a bail on an unexpected
write return value. -/
inductive SignalResult where
  | ok
  | errWrite (errno : Int)
  | errUnexpected (ret : Int)
deriving DecidableEq, Repr

/-- Embedding of `signal_parent` (daemon.rs, lines 103-119) over a trace of
write results. -/
def signal_parent : List WriteEvent → Option SignalResult
  | [] => none
  | e :: rest =>
    if e.ret = 1 then some SignalResult.ok
    else if e.ret = -1 then
      if e.errno = EINTR then signal_parent rest
      else some (SignalResult.errWrite e.errno)
    else some (SignalResult.errUnexpected e.ret)

/-- The byte written by `signal_parent` for a given success flag:
0 (READY) on success, 1 (FAILED) otherwise (daemon.rs, line 104). -/
def outcomeByte (success : Bool) : Nat := if success then 0 else 1

/-- The one error the parent branch of `daemonize` can produce after a
successful fork: the bail with message Daemon failed to start
(daemon.rs, line 94), carrying no further detail. -/
inductive DaemonError where
  | daemonFailedToStart
deriving DecidableEq, Repr

/-- The parent branch of `daemonize` (daemon.rs, lines 83-96): read the
outcome via `wait_for_signal` and return `Ok(())` exactly when it yielded
`true`. -/
def parentBranch (events : List ReadEvent) : Option (Except DaemonError Unit) :=
  match wait_for_signal events with
  | none => none
  | some success =>
    some (if success then Except.ok () else Except.error DaemonError.daemonFailedToStart)

/-- How the child's readiness-polling loop (daemon.rs, lines 56-67) can
break: `ready` via `ready_check()`, `workerExited` via
`daemon_thread.is_finished()`, `timedOut` via the deadline test. -/
inductive LoopExit where
  | ready
  | workerExited
  | timedOut
deriving DecidableEq, Repr

/-- One iteration of the polling loop, in source order: first the probe, then
the worker-finished test, then the deadline comparison; `none` means the
iteration falls through to the 50 ms sleep and the loop continues. -/
def pollStep (probe finished : Nat → Bool) (elapsed : Nat → Nat) (timeout : Nat)
    (i : Nat) : Option LoopExit :=
  if probe i then some LoopExit.ready
  else if finished i then some LoopExit.workerExited
  else if timeout ≤ elapsed i then some LoopExit.timedOut
  else none

/-- The polling loop itself, with fuel for totality, started at iteration
`i`.  Returns the loop outcome and the index of the deciding iteration, so a
result `some (r, j)` means the probe was called `j + 1` times and the loop
slept `j` times. -/
def pollLoop (probe finished : Nat → Bool) (elapsed : Nat → Nat) (timeout : Nat) :
    Nat → Nat → Option (LoopExit × Nat)
  | 0, _ => none
  | fuel + 1, i =>
    match pollStep probe finished elapsed timeout i with
    | some r => some (r, i)
    | none => pollLoop probe finished elapsed timeout fuel (i + 1)

/-- The boolean the loop breaks with: `true` only for the `ready` exit
(daemon.rs, lines 56-67). -/
def loopReady : LoopExit → Bool
  | LoopExit.ready => true
  | _ => false

/-- Result of `daemon_thread.join()` in the child (daemon.rs, lines 78-81):
the worker returned `Ok(())`, returned an error, or panicked. -/
inductive WorkerResult where
  | ok
  | errReturn
  | panicked
deriving DecidableEq, Repr

/-- The child branch of `daemonize` after the fork (daemon.rs, lines 38-82),
abstracted over whether `setsid` succeeded, how the polling loop ended, and
how the worker thread ended.  Returns the byte signalled to the parent and
the process exit code.  When `setsid` fails the child signals FAILED and
exits 1 before the loop ever runs; when the loop ends non-ready the child
signals FAILED and exits 1; otherwise it signals READY, joins the worker and
exits 0 exactly when the worker returned `Ok(())`. -/
def childRun (setsidOk : Bool) (loopResult : LoopExit) (worker : WorkerResult) :
    Nat × Nat :=
  if setsidOk = false then (outcomeByte false, 1)
  else
    let ready := loopReady loopResult
    if ready = false then (outcomeByte ready, 1)
    else
      (outcomeByte ready,
        match worker with
        | WorkerResult.ok => 0
        | _ => 1)

/-- A value of the configuration store, after turso's `Value` type as used in
mount.rs: only the `text` constructor carries a usable base path. -/
inductive Value where
  | null
  | integer (i : Int)
  | real
  | text (s : String)
  | blob (b : List Nat)
deriving DecidableEq, Repr

/-- Result of `rows.next().await` for the overlay query (mount.rs,
lines 70-80): an error, no row, or a row whose `get_value(0)` gives the
recorded result. -/
inductive RowsNext where
  | err
  | okNone
  | okRow (getValue : Except Unit Value)
deriving Repr

/-- Result of `conn.query(..)` for the overlay query (mount.rs,
lines 68-83). -/
inductive QueryOutcome where
  | err
  | ok (next : RowsNext)
deriving Repr

/-- Embedding of the `base_path` extraction in `mount` (mount.rs,
lines 68-83): a query error, a missing row, a failing `get_value`, or a
non-text value all yield `None`. -/
def basePathLookup : QueryOutcome → Option String
  | QueryOutcome.err => none
  | QueryOutcome.ok next =>
    match next with
    | RowsNext.okRow gv =>
      gv.toOption.bind (fun v =>
        match v with
        | Value.text s => some s
        | _ => none)
    | _ => none

/-- The filesystem handle chosen by `mount`: an overlay over the given base,
or the plain handle. -/
inductive FsChoice where
  | overlay (base : String)
  | plain
deriving DecidableEq, Repr

/-- Embedding of the filesystem selection in `mount` (mount.rs,
lines 85-94), abstracted over `HostFS::new`, which may fail once a base path
was found; with no base path the plain handle is used and no error is
possible. -/
def buildFs (q : QueryOutcome) (hostfsNew : String → Except Unit Unit) :
    Except Unit FsChoice :=
  match basePathLookup q with
  | some base =>
    match hostfsNew base with
    | Except.ok _ => Except.ok (FsChoice.overlay base)
    | Except.error e => Except.error e
  | none => Except.ok FsChoice.plain

/-- A filesystem path as the Rust `Path` operations used by `is_mounted` see
it: an absolute flag and a list of components.  `parent` drops the last
component and is `none` on the root and on the empty path; the path's os
string is empty exactly for the empty relative path. -/
structure MPath where
  absolute : Bool
  components : List String
deriving DecidableEq, Repr

/-- Rust `Path::parent`: `None` for the root and the empty path, otherwise
the path with the last component removed. -/
def MPath.parent (p : MPath) : Option MPath :=
  match p.components with
  | [] => none
  | _ :: _ => some ⟨p.absolute, p.components.dropLast⟩

/-- Rust `p.as_os_str().is_empty()`: true only for the empty relative
path. -/
def MPath.osStrIsEmpty (p : MPath) : Bool :=
  !p.absolute && p.components.isEmpty

/-- The root directory path. -/
def rootPath : MPath := ⟨true, []⟩

/-- The path `is_mounted` compares against (mount.rs, lines 128-131): the
parent when it exists and is non-empty, otherwise the root directory. -/
def comparedParent (path : MPath) : MPath :=
  match path.parent with
  | some p => if !p.osStrIsEmpty then p else rootPath
  | none => rootPath

/-- Embedding of `is_mounted` (mount.rs, lines 122-140) over an abstract
metadata oracle `devOf` giving the device id of a path, or `none` when
metadata retrieval fails. -/
def is_mounted (devOf : MPath → Option Nat) (path : MPath) : Bool :=
  match devOf path with
  | none => false
  | some pathDev =>
    match devOf (comparedParent path) with
    | none => false
    | some parentDev => pathDev != parentDev

/-- If the polling loop reports outcome `r` at iteration `j`, then iteration
`j` decided `r` and every earlier visited iteration fell through to the
sleep. -/
theorem pollLoop_sound (p f : Nat → Bool) (e : Nat → Nat) (t : Nat) :
    ∀ fuel i0 r j, pollLoop p f e t fuel i0 = some (r, j) →
      pollStep p f e t j = some r ∧ i0 ≤ j ∧
        (∀ k, i0 ≤ k → k < j → pollStep p f e t k = none) := by
  intro fuel
  induction fuel with
  | zero =>
    intro i0 r j h
    simp [pollLoop] at h
  | succ n ih =>
    intro i0 r j h
    cases hstep : pollStep p f e t i0 with
    | some r0 =>
      simp only [pollLoop, hstep] at h
      obtain ⟨hr, hj⟩ := Prod.mk.injEq .. ▸ Option.some.inj h
      subst hr; subst hj
      refine ⟨hstep, Nat.le_refl _, ?_⟩
      intro k hk1 hk2
      omega
    | none =>
      simp only [pollLoop, hstep] at h
      obtain ⟨h1, h2, h3⟩ := ih (i0 + 1) r j h
      refine ⟨h1, by omega, ?_⟩
      intro k hk1 hk2
      rcases Nat.eq_or_lt_of_le hk1 with heq | hlt
      · rw [← heq]; exact hstep
      · exact h3 k hlt hk2

/-- If every iteration in `[i0, j)` falls through and iteration `j` decides
`r`, then the polling loop started at `i0` with enough fuel reports `r` at
iteration `j`. -/
theorem pollLoop_complete (p f : Nat → Bool) (e : Nat → Nat) (t : Nat) :
    ∀ fuel i0 j r, i0 ≤ j → j - i0 < fuel →
      (∀ k, i0 ≤ k → k < j → pollStep p f e t k = none) →
      pollStep p f e t j = some r →
      pollLoop p f e t fuel i0 = some (r, j) := by
  intro fuel
  induction fuel with
  | zero =>
    intro i0 j r hle hfuel hnone hstep
    omega
  | succ n ih =>
    intro i0 j r hle hfuel hnone hstep
    by_cases hij : i0 = j
    · subst hij
      simp [pollLoop, hstep]
    · have hlt : i0 < j := by omega
      have h0 : pollStep p f e t i0 = none := hnone i0 (Nat.le_refl _) hlt
      simp only [pollLoop, h0]
      exact ih (i0 + 1) j r (by omega) (by omega)
        (fun k hk1 hk2 => hnone k (by omega) hk2) hstep

/-- C1: the parent branch of `daemonize` returns success exactly when
`wait_for_signal` observed `true`; every `false` observation becomes the
single detail-free daemonization-failed error; a one-byte read yields `true`
exactly when the byte is the READY value 0; and a zero-byte read (write-end
closed without data) decides `false` immediately, so a closed channel never
leaves the loop blocked. -/
theorem parent_success_iff_ready_byte (ev : List ReadEvent) :
    (parentBranch ev = some (Except.ok ()) ↔ wait_for_signal ev = some true)
    ∧ (parentBranch ev = some (Except.error DaemonError.daemonFailedToStart) ↔
        wait_for_signal ev = some false)
    ∧ (∀ (b : Nat) (errno : Int) (rest : List ReadEvent),
        wait_for_signal (⟨1, b, errno⟩ :: rest) = some (b == 0))
    ∧ (∀ (b : Nat) (errno : Int) (rest : List ReadEvent),
        wait_for_signal (⟨0, b, errno⟩ :: rest) = some false) := by
  refine ⟨?_, ?_, ?_, ?_⟩
  · unfold parentBranch
    cases h : wait_for_signal ev with
    | none => simp
    | some b => cases b <;> simp
  · unfold parentBranch
    cases h : wait_for_signal ev with
    | none => simp
    | some b => cases b <;> simp
  · intro b errno rest
    simp [wait_for_signal]
  · intro b errno rest
    simp [wait_for_signal]

/-- C2: a polling-loop iteration yields READY exactly when the probe is true
there — the probe is tested first, so this holds even when the worker has
finished or the deadline has passed — yields the worker-exited failure
exactly when the probe is false and the worker has finished, yields the
timeout failure exactly when probe and worker-finished are false and the
elapsed time has reached the timeout, and falls through otherwise; and any
outcome the loop reports was decided this way at its deciding iteration,
every earlier iteration having fallen through. -/
theorem poll_loop_three_outcomes (p f : Nat → Bool) (e : Nat → Nat) (t i : Nat) :
    (pollStep p f e t i = some LoopExit.ready ↔ p i = true)
    ∧ (pollStep p f e t i = some LoopExit.workerExited ↔ (p i = false ∧ f i = true))
    ∧ (pollStep p f e t i = some LoopExit.timedOut ↔
        (p i = false ∧ f i = false ∧ t ≤ e i))
    ∧ (pollStep p f e t i = none ↔ (p i = false ∧ f i = false ∧ e i < t))
    ∧ (∀ fuel i0 r j, pollLoop p f e t fuel i0 = some (r, j) →
        pollStep p f e t j = some r ∧ i0 ≤ j ∧
          (∀ k, i0 ≤ k → k < j → pollStep p f e t k = none)) := by
  refine ⟨?_, ?_, ?_, ?_, pollLoop_sound p f e t⟩ <;>
    · unfold pollStep
      by_cases h1 : p i
      · simp [h1]
      · by_cases h2 : f i
        · simp [h1, h2]
        · by_cases h3 : t ≤ e i
          · simp [h1, h2, h3]
          · simp [h1, h2, h3, Nat.lt_of_not_le h3]

/-- C2 witness: on a concrete run where the probe first turns true at
iteration 2, the reported outcome is READY decided at iteration 2 and the
two earlier iterations fell through. -/
theorem poll_loop_three_outcomes_witness :
    pollStep (fun j => decide (2 ≤ j)) (fun _ => false) (fun _ => 0) 10 2 =
      some LoopExit.ready
    ∧ 0 ≤ 2
    ∧ (∀ k, 0 ≤ k → k < 2 →
        pollStep (fun j => decide (2 ≤ j)) (fun _ => false) (fun _ => 0) 10 k = none) :=
  (poll_loop_three_outcomes (fun j => decide (2 ≤ j)) (fun _ => false)
    (fun _ => 0) 10 2).2.2.2.2 5 0 LoopExit.ready 2 rfl

/-- C3: the child's exit status is 0 exactly when it signalled the READY
byte and the worker returned `Ok(())`; the status is always 0 or 1; and each
startup-failure path — setsid failure, a non-ready loop outcome, or a worker
error or panic after READY — exits with status 1. -/
theorem exit_zero_iff_ready_and_ok (s : Bool) (lr : LoopExit) (w : WorkerResult) :
    ((childRun s lr w).2 = 0 ↔
      ((childRun s lr w).1 = outcomeByte true ∧ w = WorkerResult.ok))
    ∧ ((childRun s lr w).2 = 0 ∨ (childRun s lr w).2 = 1)
    ∧ (childRun false lr w).2 = 1
    ∧ (childRun s LoopExit.workerExited w).2 = 1
    ∧ (childRun s LoopExit.timedOut w).2 = 1
    ∧ (childRun true LoopExit.ready WorkerResult.errReturn).2 = 1
    ∧ (childRun true LoopExit.ready WorkerResult.panicked).2 = 1 := by
  cases s <;> cases lr <;> cases w <;> decide

/-- C4: if the probe has never returned true and the worker is observed
finished at iteration `i`, the loop reports the worker-exited failure decided
at iteration `i` itself — no hypothesis on the elapsed time is needed, the
deadline comparison is never reached and the loop does not sleep out the
remaining timeout (the deciding index `i` counts the sleeps) — and the child
then exits with status 1. -/
theorem worker_exit_fails_fast (p f : Nat → Bool) (e : Nat → Nat)
    (t fuel i : Nat) (w : WorkerResult)
    (hfuel : i < fuel)
    (hreach : ∀ j, j < i → pollStep p f e t j = none)
    (hp : p i = false) (hf : f i = true) :
    pollLoop p f e t fuel 0 = some (LoopExit.workerExited, i)
    ∧ (childRun true LoopExit.workerExited w).2 = 1 := by
  refine ⟨?_, rfl⟩
  refine pollLoop_complete p f e t fuel 0 i LoopExit.workerExited
    (Nat.zero_le _) (by omega) (fun k _ hk2 => hreach k hk2) ?_
  simp [pollStep, hp, hf]

/-- C4 witness: with a probe that is always false and a worker that is
finished from iteration 1 on, the loop fails at iteration 1 although the
10-unit timeout is nowhere near elapsed, and the child exits 1. -/
theorem worker_exit_fails_fast_witness :
    pollLoop (fun _ => false) (fun j => decide (1 ≤ j)) (fun _ => 0) 10 5 0 =
      some (LoopExit.workerExited, 1)
    ∧ (childRun true LoopExit.workerExited WorkerResult.errReturn).2 = 1 :=
  worker_exit_fails_fast (fun _ => false) (fun j => decide (1 ≤ j)) (fun _ => 0)
    10 5 1 WorkerResult.errReturn (by decide)
    (by
      intro j hj
      have hj0 : j = 0 := by omega
      subst hj0
      rfl)
    rfl (by decide)

/-- C5: with a zero timeout, if the first probe call returns false and the
worker is still running, the deadline test `0 ≤ elapsed` is immediately true
and the loop reports the timeout failure decided at iteration 0 — one probe
call, no sleep; moreover with a zero timeout no iteration can ever fall
through to the sleep. -/
theorem zero_timeout_single_probe (p f : Nat → Bool) (e : Nat → Nat) (fuel : Nat)
    (hfuel : 0 < fuel) (hp : p 0 = false) (hf : f 0 = false) :
    pollLoop p f e 0 fuel 0 = some (LoopExit.timedOut, 0)
    ∧ (∀ i, pollStep p f e 0 i ≠ none) := by
  constructor
  · cases fuel with
    | zero => omega
    | succ n => simp [pollLoop, pollStep, hp, hf]
  · intro i
    unfold pollStep
    by_cases h1 : p i
    · simp [h1]
    · by_cases h2 : f i
      · simp [h1, h2]
      · simp [h1, h2]

/-- C5 witness: at timeout 0 with a false probe and a running worker the
loop fails at iteration 0, and no iteration can fall through. -/
theorem zero_timeout_single_probe_witness :
    pollLoop (fun _ => false) (fun _ => false) (fun _ => 7) 0 3 0 =
      some (LoopExit.timedOut, 0)
    ∧ (∀ i, pollStep (fun _ => false) (fun _ => false) (fun _ => 7) 0 i ≠ none) :=
  zero_timeout_single_probe (fun _ => false) (fun _ => false) (fun _ => 7) 3
    (by decide) rfl rfl

/-- C6: any number of EINTR-interrupted write attempts in front of a write
trace, and any number of EINTR-interrupted read attempts in front of a read
trace, leave the results of `signal_parent` and `wait_for_signal` unchanged:
interruption is retried transparently on both sides of the handshake, never
changes the outcome and is never surfaced as an error. -/
theorem eintr_retried_transparently (n : Nat) (b : Nat)
    (ws : List WriteEvent) (rs : List ReadEvent) :
    signal_parent (List.replicate n ⟨-1, EINTR⟩ ++ ws) = signal_parent ws
    ∧ wait_for_signal (List.replicate n ⟨-1, b, EINTR⟩ ++ rs) = wait_for_signal rs := by
  induction n with
  | zero => simp
  | succ m ih =>
    refine ⟨?_, ?_⟩
    · simpa [List.replicate_succ, signal_parent, EINTR] using ih.1
    · simpa [List.replicate_succ, wait_for_signal, EINTR] using ih.2

/-- C7: the mount's filesystem selection yields the plain handle exactly when
the base-path lookup produced nothing, and the lookup produces nothing on
every failure: a query error, a rows error, no row, a failing get_value, and
every non-text value; in all these cases the result is `Ok plain`, never an
error, whatever `HostFS::new` would do. -/
theorem lookup_failure_means_plain (q : QueryOutcome)
    (hostfsNew : String → Except Unit Unit) :
    (buildFs q hostfsNew = Except.ok FsChoice.plain ↔ basePathLookup q = none)
    ∧ basePathLookup QueryOutcome.err = none
    ∧ basePathLookup (QueryOutcome.ok RowsNext.err) = none
    ∧ basePathLookup (QueryOutcome.ok RowsNext.okNone) = none
    ∧ (∀ er : Unit, basePathLookup (QueryOutcome.ok (RowsNext.okRow (Except.error er))) = none)
    ∧ basePathLookup (QueryOutcome.ok (RowsNext.okRow (Except.ok Value.null))) = none
    ∧ (∀ i : Int, basePathLookup
        (QueryOutcome.ok (RowsNext.okRow (Except.ok (Value.integer i)))) = none)
    ∧ basePathLookup (QueryOutcome.ok (RowsNext.okRow (Except.ok Value.real))) = none
    ∧ (∀ b : List Nat, basePathLookup
        (QueryOutcome.ok (RowsNext.okRow (Except.ok (Value.blob b)))) = none) := by
  refine ⟨?_, rfl, rfl, rfl, fun er => rfl, rfl, fun i => rfl, rfl, fun b => rfl⟩
  cases hl : basePathLookup q with
  | none => simp [buildFs, hl]
  | some base =>
    cases hh : hostfsNew base <;> simp [buildFs, hl, hh]

/-- C8: `is_mounted` returns true exactly when metadata (the device id) is
available for both the path and the parent path it compares against and the
two device ids differ; in particular whenever either retrieval fails there
are no such ids and the probe returns false instead of an error. -/
theorem is_mounted_iff_devs_differ (devOf : MPath → Option Nat) (path : MPath) :
    is_mounted devOf path = true ↔
      ∃ d1 d2, devOf path = some d1 ∧ devOf (comparedParent path) = some d2 ∧ d1 ≠ d2 := by
  unfold is_mounted
  cases h1 : devOf path with
  | none => simp [h1]
  | some d1 =>
    cases h2 : devOf (comparedParent path) with
    | none => simp [h1, h2]
    | some d2 => simp [h1, h2, bne_iff_ne]

/-- C9: `wait_for_signal` maps every deciding read other than a successful
one-byte read — a non-EINTR error, and any unexpected return value — to
`false`, and the parent branch of `daemonize` can only produce success or
the single daemon-failed error, never any other error. -/
theorem read_errors_collapse_to_false (e : ReadEvent) (rest : List ReadEvent)
    (h1 : e.ret ≠ 1) (h2 : ¬(e.ret = -1 ∧ e.errno = EINTR)) :
    wait_for_signal (e :: rest) = some false
    ∧ (∀ ev, parentBranch ev = none ∨ parentBranch ev = some (Except.ok ())
        ∨ parentBranch ev = some (Except.error DaemonError.daemonFailedToStart)) := by
  constructor
  · unfold wait_for_signal
    by_cases hz : e.ret = 0
    · simp [h1, hz]
    · by_cases hm : e.ret = -1
      · have hi : e.errno ≠ EINTR := fun hcon => h2 ⟨hm, hcon⟩
        simp [h1, hz, hm, hi]
      · simp [h1, hz, hm]
  · intro ev
    unfold parentBranch
    cases h : wait_for_signal ev with
    | none => simp
    | some b => cases b <;> simp

/-- C9 witness: a read failing with EAGAIN (errno 11) decides `false` at
once, and the parent branch ranges over success and the single error only. -/
theorem read_errors_collapse_witness :
    wait_for_signal [⟨-1, 0, 11⟩] = some false
    ∧ (∀ ev, parentBranch ev = none ∨ parentBranch ev = some (Except.ok ())
        ∨ parentBranch ev = some (Except.error DaemonError.daemonFailedToStart)) :=
  read_errors_collapse_to_false ⟨-1, 0, 11⟩ [] (by decide) (by decide)

/-- C10: for the filesystem root, whose `parent` is `None`, and for a
single-component relative path, whose `parent` is the empty path, the path
`is_mounted` compares against is the root directory, not the actual
immediate parent; so on such a path `is_mounted` compares the path's device
id with the root's. -/
theorem no_parent_compares_root (devOf : MPath → Option Nat) (s : String) :
    comparedParent rootPath = rootPath
    ∧ comparedParent ⟨false, [s]⟩ = rootPath
    ∧ is_mounted devOf ⟨false, [s]⟩ =
        (match devOf ⟨false, [s]⟩, devOf rootPath with
         | some d1, some d2 => d1 != d2
         | _, _ => false) := by
  refine ⟨rfl, rfl, ?_⟩
  unfold is_mounted
  cases h1 : devOf ⟨false, [s]⟩ with
  | none => simp [h1]
  | some d1 =>
    have h2 : devOf (comparedParent ⟨false, [s]⟩) = devOf rootPath := rfl
    cases h3 : devOf rootPath with
    | none =>
      rw [h2, h3]
    | some d2 =>
      rw [h2, h3]
